import Mathlib

/-!
Verification of the OIG access-request agent (MCP server/client).

Shallow embedding of the two logic-bearing files of the repository:
`server.js` (class `MCPServer` with mock mode, class `MCPClient`, webhook
wiring) and the standalone `MCPServer`/`MCPClient` modules.  JavaScript
objects returned by the tools are modelled by a JSON-like inductive value;
the network (Okta governance API) and the mock grant-id generator
(`grant-${Date.now()}-${Math.random()...}` in the source) are modelled by
oracles passed as parameters; the OpenAI chat completion endpoint is
modelled by a scripted list of future model responses.
-/

namespace OigAgent

/-- JSON-like values, modelling the JavaScript objects the tools build and
return.  Object fields are an ordered association list, mirroring JS
property order. -/
inductive JsonVal where
  | jnull : JsonVal
  | jbool : Bool → JsonVal
  | jstr : String → JsonVal
  | jarr : List JsonVal → JsonVal
  | jobj : List (String × JsonVal) → JsonVal

open JsonVal

/-- Top-level field lookup on a JSON object (JS property access). -/
def getField : JsonVal → String → Option JsonVal
  | jobj fs, k => (fs.find? (fun p => p.1 = k)).map (fun p => p.2)
  | _, _ => none

/-- Whether a JSON object has a given top-level field. -/
def hasField (j : JsonVal) (k : String) : Bool :=
  (getField j k).isSome

/-- The ordered list of top-level field names of a JSON object: the
"structural shape" of a ToolResult envelope. -/
def topFields : JsonVal → List String
  | jobj fs => fs.map (fun p => p.1)
  | _ => []

/-- The uniform failure envelope `{ success: false, error: message }`
built by every catch block of the tool layer. -/
def failObj (e : String) : JsonVal :=
  jobj [("success", jbool false), ("error", jstr e)]

/-- JS string interpolation of a possibly-undefined value: `${x}` renders
`undefined` as the string "undefined". -/
def jsStr : Option String → String
  | some s => s
  | none => "undefined"

/-- An entitlement bundle as projected by `listEntitlementBundles`
(`{ id, name, description, status }`). -/
structure Bundle where
  id : String
  name : String
  description : String
  status : String

/-- JSON object for one bundle, as built by the `.map` in
`listEntitlementBundles`. -/
def bundleJson (b : Bundle) : JsonVal :=
  jobj [("id", jstr b.id), ("name", jstr b.name),
        ("description", jstr b.description), ("status", jstr b.status)]

/-- The fixed mock catalog returned by `listEntitlementBundles` in mock
mode (`mockBundles` in `server.js`). -/
def mockBundles : List Bundle :=
  [ ⟨"enbmtw1byu10MX9wZ696", "Viewer - viewer",
      "Grants read-only access to all of a project\x27s resources.", "ACTIVE"⟩,
    ⟨"enbmtw1buZQG1bZZZ696", "Storage Object Viewer - storage.objectViewer",
      "Grants read-only access to Cloud Storage objects.", "ACTIVE"⟩,
    ⟨"enbmtv1gportvxifd696", "Storage Object Admin - storage.objectAdmin",
      "Grants full control over Cloud Storage objects.", "ACTIVE"⟩,
    ⟨"enbmtv1gl03rpGl0G696", "BigQuery Data Editor - bigquery.dataEditor",
      "Grants permissions to edit data and metadata in BigQuery tables.", "ACTIVE"⟩ ]

/-- Oracles for the Okta governance backend: the three network operations
the tools perform.  `Except.error m` models an axios failure whose
`error.message` is `m`; `Except.ok` models an HTTP success and carries the
part of the response body the code reads. -/
structure Backend where
  listBundles : String → Except String (List Bundle)
  postGrant : String → String → Except String String
  postMessage : String → String → Except String JsonVal

/-- MCPServer.listEntitlementBundles: in mock mode returns the fixed
catalog (ignoring `applicationId`); live, issues the filtered GET and maps
the response bundles, or returns the failure envelope. -/
def listEntitlementBundles (mock : Bool) (be : Backend) (applicationId : String) : JsonVal :=
  if mock then
    jobj [("success", jbool true), ("data", jarr (mockBundles.map bundleJson))]
  else
    match be.listBundles applicationId with
    | Except.ok bs => jobj [("success", jbool true), ("data", jarr (bs.map bundleJson))]
    | Except.error e => failObj e

/-- One grant record `{ entitlementBundleId, grantId, status: "created" }`
as pushed onto `grantResults`. -/
def grantRecordJson (entId gid : String) : JsonVal :=
  jobj [("entitlementBundleId", jstr entId), ("grantId", jstr gid),
        ("status", jstr "created")]

/-- The sequential grant loop of `createGrant` (live path): one POST per
entitlement id, in list order; the first failing POST throws out of the
loop, discarding the accumulated `grantResults`. -/
def createGrantResults (post : String → Except String String) :
    List String → Except String (List JsonVal)
  | [] => Except.ok []
  | id :: rest =>
    match post id with
    | Except.error e => Except.error e
    | Except.ok g =>
      match createGrantResults post rest with
      | Except.error e => Except.error e
      | Except.ok tail => Except.ok (grantRecordJson id g :: tail)

/-- MCPServer.createGrant, live path: on full success returns
`{ success: true, data: grantResults, reasoning }`; the catch block around
the whole loop turns the first thrown error into `{ success: false,
error }`. -/
def createGrantLive (post : String → Except String String)
    (entitlementIds : List String) (reasoning : String) : JsonVal :=
  match createGrantResults post entitlementIds with
  | Except.ok results =>
      jobj [("success", jbool true), ("data", jarr results),
            ("reasoning", jstr reasoning)]
  | Except.error e => failObj e

/-- The grants actually performed at the backend by the live `createGrant`
loop before its first failure: the externally observable side effects,
which the returned ToolResult may or may not mention. -/
def performedGrants (post : String → Except String String) :
    List String → List (String × String)
  | [] => []
  | id :: rest =>
    match post id with
    | Except.error _ => []
    | Except.ok g => (id, g) :: performedGrants post rest

/-- MCPServer.createGrant, mock path: one synthetic grant per entitlement
id; `gen i` models the generated id `grant-${Date.now()}-${Math.random()
.toString(36).substr(2, 9)}` for the i-th iteration. -/
def createGrantMock (gen : Nat → String)
    (entitlementIds : List String) (reasoning : String) : JsonVal :=
  jobj [("success", jbool true),
        ("data", jarr (entitlementIds.enum.map
          (fun p => grantRecordJson p.2 (gen p.1)))),
        ("reasoning", jstr reasoning)]

/-- MCPServer.addRequestMessage, mock path: note the envelope is
`{ success, requestId, message }`, not `{ success, data }`. -/
def addRequestMessageMock (requestId message : String) : JsonVal :=
  jobj [("success", jbool true), ("requestId", jstr requestId),
        ("message", jstr message)]

/-- MCPServer.addRequestMessage, live path: POST the message, returning
`{ success: true, data: response.data }` or the failure envelope. -/
def addRequestMessageLive (post : String → String → Except String JsonVal)
    (requestId message : String) : JsonVal :=
  match post requestId message with
  | Except.ok d => jobj [("success", jbool true), ("data", d)]
  | Except.error e => failObj e

/-- The parsed `args` object handed to `executeTool`: each property is
present (`some`) or absent/undefined (`none`). -/
structure ToolArgs where
  applicationId : Option String
  userId : Option String
  entitlementIds : Option (List String)
  reasoning : Option String
  requestId : Option String
  message : Option String

/-- Args object with every property absent. -/
def emptyArgs : ToolArgs := ⟨none, none, none, none, none, none⟩

/-- Outcome of `executeTool`: either it returns a ToolResult value, or it
throws a synchronous JS error with the given message. -/
inductive ExecOutcome where
  | result : JsonVal → ExecOutcome
  | thrown : String → ExecOutcome

/-- Message of the TypeError raised when `entitlementIds.length` is read
with `entitlementIds` undefined. -/
def typeErrorLength : String :=
  "Cannot read properties of undefined (reading \x27length\x27)"

/-- MCPServer.executeTool: string-switch dispatch over the three tool
names, throwing `Unknown MCP tool: <name>` on the default branch.  No
argument validation is performed: `create_grant` with `entitlementIds`
absent hits `entitlementIds.length` — outside any try/catch in the mock
branch (so the TypeError escapes), inside the live try/catch (so it is
caught and wrapped in the failure envelope). -/
def executeTool (mock : Bool) (be : Backend) (gen : Nat → String)
    (toolName : String) (args : ToolArgs) : ExecOutcome :=
  if toolName = "list_entitlement_bundles" then
    ExecOutcome.result (listEntitlementBundles mock be (jsStr args.applicationId))
  else if toolName = "create_grant" then
    match args.entitlementIds with
    | none =>
      if mock then ExecOutcome.thrown typeErrorLength
      else ExecOutcome.result (failObj typeErrorLength)
    | some ids =>
      if mock then
        ExecOutcome.result (createGrantMock gen ids (jsStr args.reasoning))
      else
        ExecOutcome.result
          (createGrantLive (be.postGrant (jsStr args.userId)) ids (jsStr args.reasoning))
  else if toolName = "add_request_message" then
    ExecOutcome.result
      (if mock then addRequestMessageMock (jsStr args.requestId) (jsStr args.message)
       else addRequestMessageLive be.postMessage (jsStr args.requestId) (jsStr args.message))
  else
    ExecOutcome.thrown ("Unknown MCP tool: " ++ toolName)

/-- The registered tool names, in registry order. -/
def registeredTools : List String :=
  ["list_entitlement_bundles", "create_grant", "add_request_message"]

/-- One tool call emitted by the model: OpenAI `tool_calls[i]` with its
correlation `id`, function `name` and parsed JSON `arguments`. -/
structure ToolCall where
  id : String
  name : String
  args : ToolArgs

/-- One model response message: its text `content` and its `tool_calls`
property, which in the OpenAI response is either an array or absent
(`none`).  The JS loop guard `while (currentResponse.choices[0].message
.tool_calls)` tests truthiness, so an empty array (`some []`) keeps the
loop running while `none` stops it. -/
structure ModelMsg where
  content : String
  tool_calls : Option (List ToolCall)

/-- A message in the `messages` array sent to the chat endpoint: the
system seed, an assistant (model) message, or a tool-result message
correlated by `tool_call_id`.  The tool message carries the ToolResult
value whose `JSON.stringify` the code actually sends. -/
inductive ChatMsg where
  | system : String → ChatMsg
  | assistant : ModelMsg → ChatMsg
  | tool : String → JsonVal → ChatMsg

/-- The body of inner try/catch of `handleToolCalls` for one tool call:
a returned ToolResult is pushed as a tool message; a thrown error is
caught and pushed as `{ success: false, error: message }` under the same
`tool_call_id`. -/
def execCallMsg (mock : Bool) (be : Backend) (gen : Nat → String)
    (c : ToolCall) : ChatMsg :=
  match executeTool mock be gen c.name c.args with
  | ExecOutcome.result r => ChatMsg.tool c.id r
  | ExecOutcome.thrown e => ChatMsg.tool c.id (failObj e)

/-- Trace of one run of the `while` loop of `handleToolCalls`:
`requests` collects, in order, the `messages` array of every chat request
the loop itself issues; `executed` collects, per processed turn, the tool
calls executed in that turn; `final` is the terminating model response
(one whose `tool_calls` is absent), or `none` when the scripted responses
ran out while the loop still wanted another turn. -/
structure LoopTrace where
  requests : List (List ChatMsg)
  executed : List (List ToolCall)
  final : Option ModelMsg

/-- The `while (currentResponse.choices[0].message.tool_calls)` loop of
`handleToolCalls`: while the current response has a `tool_calls` property
(even an empty array), push the assistant message, execute each call in
emission order pushing one tool message per call, then request the next
model turn with the accumulated `messages`; the model is scripted by
`future`. -/
def runLoop (mock : Bool) (be : Backend) (gen : Nat → String)
    (cur : ModelMsg) (future : List ModelMsg) (msgs : List ChatMsg) : LoopTrace :=
  match cur.tool_calls with
  | none => ⟨[], [], some cur⟩
  | some calls =>
    let msgs2 := msgs ++ [ChatMsg.assistant cur] ++ calls.map (execCallMsg mock be gen)
    match future with
    | [] => ⟨[msgs2], [calls], none⟩
    | next :: rest =>
      let t := runLoop mock be gen next rest msgs2
      ⟨msgs2 :: t.requests, calls :: t.executed, t.final⟩

/-- The generic system message `handleToolCalls` seeds its own `messages`
array with — this replaces, rather than carries over, the system prompt
built from the webhook data. -/
def genericSystem : ChatMsg :=
  ChatMsg.system "Process this access request autonomously."

/-- MCPClient.handleToolCalls: run the loop starting from the first
response, with `messages` freshly initialised to the generic system
message only. -/
def handleToolCalls (mock : Bool) (be : Backend) (gen : Nat → String)
    (first : ModelMsg) (future : List ModelMsg) : LoopTrace :=
  runLoop mock be gen first future [genericSystem]

/-- The normalized webhook fields that `processAccessRequest` interpolates
into its system prompt. -/
structure WebhookData where
  userEmail : String
  userId : String
  accessLevelName : String
  accessLevelDescription : String
  catalogEntryId : String
  justification : String
  accessRequestId : String

/-- The system prompt template literal of `processAccessRequest`, with the
webhook fields interpolated. -/
def buildSystemPrompt (w : WebhookData) : String :=
  String.intercalate "\n"
    [ "You are a SENIOR SECURITY ENGINEER evaluating access requests for Google Cloud Project (GCP) roles to a production environment from engineers an enterprise company. You must make decisions that enforce least privilege but also ensure business continuity.",
      "",
      "REQUIREMENTS:",
      "1. Justifications within the request must contain meaningful information including:",
      "\ta. Incident/Reference number OR explicit statement this is routine/planned work",
      "\tb. Specific GCP resource types (storage, bigquery, kubernetes, logs, compute, vertex-ai, etc.)",
      "\tc. Clear description of planned actions with those resources",
      "2. NEVER grant admin roles unless the justification explicitly mentions admin tasks such as, but not limited to,  \"create\", \"delete\", \"configure\", \"manage infrastructure\"",
      "3. Do not generate values foruserId or requestId",
      "4. When calling add_request_message, you MUST use requestId: \"" ++ w.accessRequestId ++ "\"",
      "5. When calling create_grant, you MUST use userId: \"" ++ w.userId ++ "\"",
      "",
      "",
      "",
      "CURRENT REQUEST ANALYSIS:",
      "- User Email: " ++ w.userEmail,
      "- userId: " ++ w.userId,
      "- GCP role name: \"" ++ w.accessLevelName ++ "\"",
      "- GCP role description: \"" ++ w.accessLevelDescription ++ "\"",
      "- Catalog Entry ID: " ++ w.catalogEntryId,
      "- Justification: \"" ++ w.justification ++ "\"",
      "",
      "MANDATORY WORKFLOW:",
      "1. Determine if the justification includes the required information (incident number/info, GPC resources, intent w/GCP resources).  If it does not, stop processing send a message of the justification on having enough information",
      "2. If the justification contains the necessary information, then call list_entitlement_bundles to see all available roles and descriptions from the catalog",
      "3. Compare the description of the role requested against the justification the user provided",
      "\ta.  If the requested role and role description aligns with the justification, then grant the role",
      "    b.  If the requested role is over-permissive (for ex. they request a role with admin privileges) but there is no clear justification (ie mention of modifying the system via update, delete, configure, etc.), grant a less permissive entitlement based on the resources included in the justification.  Only grant a single bundle which directly maps to GCP resources mentioned explicitly in the justification      ",
      "4. Provide details for why the roles were granted and why if the original role requested was not grated.  Include in the details what roles were ultiamtely granted",
      "5. Only grant bundles to GCP resources EXPLICITLY MENTIONED in the justification. For example, only grant Vertex bundles when the jusitifcation mentiones AI or machine learning, etc., grant BigQuery when justification includes terms like database, grant Storage entitlements when files or cloud storage is mentioned",
      "",
      "Remember: Your job is to enable legitimate work while minimizing access to unnecessary permissions and enforcing the principal of least privilege" ]

/-- All chat requests issued while processing one access request: the
first request of `processAccessRequest` (whose `messages` is exactly the
one system prompt built from the webhook data) followed by every request
the `handleToolCalls` loop issues. -/
def allModelRequests (w : WebhookData) (mock : Bool) (be : Backend)
    (gen : Nat → String) (first : ModelMsg) (future : List ModelMsg) :
    List (List ChatMsg) :=
  [ChatMsg.system (buildSystemPrompt w)] ::
    (handleToolCalls mock be gen first future).requests

/-- The contents of the system messages of one chat request, in order. -/
def systemContents : List ChatMsg → List String
  | [] => []
  | ChatMsg.system s :: rest => s :: systemContents rest
  | _ :: rest => systemContents rest

/-- Value carried by a successful backend grant response (dummy on
error; only used under a success hypothesis). -/
def okVal : Except String String → String
  | Except.ok g => g
  | Except.error _ => ""

/-- A backend whose every call fails; the mock-mode tools never reach
it. -/
def be0 : Backend :=
  ⟨fun _ => Except.error "offline", fun _ _ => Except.error "offline",
   fun _ _ => Except.error "offline"⟩

/-- A backend whose every call succeeds. -/
def be2 : Backend :=
  ⟨fun _ => Except.ok [], fun _ _ => Except.ok "gid-1",
   fun _ _ => Except.ok (jobj [])⟩

/-- A deterministic mock grant-id generator. -/
def gen0 : Nat → String := fun n => "grant-mock-" ++ toString n

/-- A grant backend that succeeds for entitlement id "A" and fails for
every other id. -/
def be1 : String → Except String String :=
  fun id => if id = "A" then Except.ok "gid-A" else Except.error "boom"

/-- A grant backend that succeeds on every id with a distinct derived
grant id. -/
def postOk : String → Except String String :=
  fun id => Except.ok ("g-" ++ id)

/-- A terminating model response: `tool_calls` absent. -/
def respFinal : ModelMsg := ⟨"All done.", none⟩

/-- A model response carrying a present-but-empty `tool_calls` array
(zero tool-call requests, but truthy in the JS loop guard). -/
def respEmptyCalls : ModelMsg := ⟨"Thinking.", some []⟩

/-- A tool call naming a tool that is not in the registry. -/
def badCall : ToolCall := ⟨"call_9", "bogus_tool", emptyArgs⟩

/-- A model response requesting only the unknown tool. -/
def respBad : ModelMsg := ⟨"", some [badCall]⟩

/-- A concrete webhook record. -/
def wd0 : WebhookData :=
  ⟨"mike@example.com", "00u123", "Viewer - viewer", "Read-only access",
   "cat1", "Need to view storage objects for INC-42", "req-001"⟩

/-- A well-formed tool call for `list_entitlement_bundles`. -/
def call0 : ToolCall :=
  ⟨"call_1", "list_entitlement_bundles", ⟨some "app1", none, none, none, none, none⟩⟩

/-- A first model response requesting one tool call. -/
def firstResp : ModelMsg := ⟨"", some [call0]⟩

/-! Helper lemmas (shared across the claim theorems below). -/

theorem runLoop_none (mock : Bool) (be : Backend) (gen : Nat → String)
    (cur : ModelMsg) (future : List ModelMsg) (msgs : List ChatMsg)
    (h : cur.tool_calls = none) :
    runLoop mock be gen cur future msgs = ⟨[], [], some cur⟩ := by
  unfold runLoop
  rw [h]

theorem runLoop_some_nil (mock : Bool) (be : Backend) (gen : Nat → String)
    (cur : ModelMsg) (msgs : List ChatMsg) (calls : List ToolCall)
    (h : cur.tool_calls = some calls) :
    runLoop mock be gen cur [] msgs =
      ⟨[msgs ++ [ChatMsg.assistant cur] ++ calls.map (execCallMsg mock be gen)],
       [calls], none⟩ := by
  unfold runLoop
  rw [h]

theorem runLoop_some_cons (mock : Bool) (be : Backend) (gen : Nat → String)
    (cur next : ModelMsg) (rest : List ModelMsg) (msgs : List ChatMsg)
    (calls : List ToolCall) (h : cur.tool_calls = some calls) :
    runLoop mock be gen cur (next :: rest) msgs =
      ⟨(msgs ++ [ChatMsg.assistant cur] ++ calls.map (execCallMsg mock be gen)) ::
         (runLoop mock be gen next rest
           (msgs ++ [ChatMsg.assistant cur] ++ calls.map (execCallMsg mock be gen))).requests,
       calls :: (runLoop mock be gen next rest
           (msgs ++ [ChatMsg.assistant cur] ++ calls.map (execCallMsg mock be gen))).executed,
       (runLoop mock be gen next rest
           (msgs ++ [ChatMsg.assistant cur] ++ calls.map (execCallMsg mock be gen))).final⟩ := by
  conv_lhs => unfold runLoop
  rw [h]

theorem executeTool_unknown_eq (mock : Bool) (be : Backend) (gen : Nat → String)
    (toolName : String) (args : ToolArgs) (h : toolName ∉ registeredTools) :
    executeTool mock be gen toolName args
      = ExecOutcome.thrown ("Unknown MCP tool: " ++ toolName) := by
  simp only [registeredTools, List.mem_cons, List.not_mem_nil, or_false, not_or] at h
  obtain ⟨h1, h2, h3⟩ := h
  simp [executeTool, h1, h2, h3]

theorem createGrantResults_ok (post : String → Except String String)
    (ids : List String) (hok : ∀ id ∈ ids, ∃ g, post id = Except.ok g) :
    createGrantResults post ids
      = Except.ok (ids.map (fun id => grantRecordJson id (okVal (post id)))) := by
  induction ids with
  | nil => rfl
  | cons a as ih =>
    obtain ⟨g, hg⟩ := hok a (List.mem_cons_self a as)
    have ih' := ih (fun id hid => hok id (List.mem_cons_of_mem a hid))
    simp [createGrantResults, hg, ih', okVal]

theorem createGrantLive_ok (post : String → Except String String)
    (ids : List String) (rsn : String)
    (hok : ∀ id ∈ ids, ∃ g, post id = Except.ok g) :
    createGrantLive post ids rsn
      = jobj [("success", jbool true),
              ("data", jarr (ids.map (fun id => grantRecordJson id (okVal (post id))))),
              ("reasoning", jstr rsn)] := by
  unfold createGrantLive
  rw [createGrantResults_ok post ids hok]

/-! Claim theorems. -/

/-- Claim C2: for every tool name that is not one of the three registered
tools, `executeTool` throws the synchronous protocol error
`Unknown MCP tool: <name>` and never returns any ToolResult, in particular
never one with success = true. -/
theorem executeTool_unknown_tool_throws (mock : Bool) (be : Backend)
    (gen : Nat → String) (toolName : String) (args : ToolArgs)
    (h : toolName ∉ registeredTools) :
    executeTool mock be gen toolName args
      = ExecOutcome.thrown ("Unknown MCP tool: " ++ toolName)
    ∧ ∀ r, executeTool mock be gen toolName args ≠ ExecOutcome.result r := by
  have he := executeTool_unknown_eq mock be gen toolName args h
  refine ⟨he, fun r hr => ?_⟩
  rw [he] at hr
  exact ExecOutcome.noConfusion hr

/-- Witness for C2 at the concrete unknown tool name "foo". -/
theorem executeTool_unknown_tool_throws_witness :
    executeTool true be0 gen0 "foo" emptyArgs
      = ExecOutcome.thrown ("Unknown MCP tool: " ++ "foo") :=
  (executeTool_unknown_tool_throws true be0 gen0 "foo" emptyArgs (by decide)).1

/-- Claim C5: for every create_grant call (live path) whose every backend
grant request succeeds, the ToolResult has success = true and its data
holds exactly one Grant record per entitlement id, each with status
"created" and with pairwise distinct grant identifiers (the identifiers
the backend returned, assumed distinct as fresh resource ids). -/
theorem createGrant_success_n_records (post : String → Except String String)
    (ids : List String) (rsn : String)
    (hok : ∀ id ∈ ids, ∃ g, post id = Except.ok g)
    (hnd : (ids.map (fun id => okVal (post id))).Nodup) :
    getField (createGrantLive post ids rsn) "success" = some (jbool true)
    ∧ ∃ records : List JsonVal,
        getField (createGrantLive post ids rsn) "data" = some (jarr records)
        ∧ records.length = ids.length
        ∧ (∀ g ∈ records, getField g "status" = some (jstr "created"))
        ∧ (records.map (fun g => getField g "grantId")).Nodup := by
  rw [createGrantLive_ok post ids rsn hok]
  refine ⟨rfl, ids.map (fun id => grantRecordJson id (okVal (post id))), rfl,
    by simp, ?_, ?_⟩
  · intro g hg
    simp only [List.mem_map] at hg
    obtain ⟨id, _, rfl⟩ := hg
    rfl
  · rw [List.map_map]
    have heq : ((fun g => getField g "grantId") ∘
        (fun id => grantRecordJson id (okVal (post id))))
        = (fun s => some (jstr s)) ∘ (fun id => okVal (post id)) := by
      funext id
      rfl
    rw [heq, ← List.map_map]
    refine hnd.map ?_
    intro a b hab
    simpa using hab

/-- Witness for C5 at two concrete entitlement ids and an all-ok
backend. -/
theorem createGrant_success_n_records_witness :
    getField (createGrantLive postOk ["A", "B"] "because") "success"
      = some (jbool true) :=
  (createGrant_success_n_records postOk ["A", "B"] "because"
    (fun id _ => ⟨"g-" ++ id, rfl⟩) (by decide)).1

/-- Claim C10: for every successful live create_grant call, the data list
preserves the input order — it is exactly the input ids mapped to records
pairing each id with the grant identifier the backend returned for it —
and the result object carries the reasoning string of the caller verbatim as a
third field beyond the documented success/data/error envelope. -/
theorem createGrant_order_reasoning (post : String → Except String String)
    (ids : List String) (rsn : String)
    (hok : ∀ id ∈ ids, ∃ g, post id = Except.ok g) :
    getField (createGrantLive post ids rsn) "reasoning" = some (jstr rsn)
    ∧ getField (createGrantLive post ids rsn) "data"
        = some (jarr (ids.map (fun id => grantRecordJson id (okVal (post id)))))
    ∧ topFields (createGrantLive post ids rsn) = ["success", "data", "reasoning"] := by
  rw [createGrantLive_ok post ids rsn hok]
  exact ⟨rfl, rfl, rfl⟩

/-- Witness for C10 at two concrete entitlement ids: the data records sit
in input order with the backend-returned grant ids. -/
theorem createGrant_order_reasoning_witness :
    getField (createGrantLive postOk ["A", "B"] "why") "data"
      = some (jarr [grantRecordJson "A" "g-A", grantRecordJson "B" "g-B"]) :=
  (createGrant_order_reasoning postOk ["A", "B"] "why"
    (fun id _ => ⟨"g-" ++ id, rfl⟩)).2.1

/-- Claim C1, counterexample: with entitlementIds = ["A", "B"], the grant
for "A" succeeding (and performed at the backend) and the grant for "B"
failing, the live createGrant returns only the overall failure envelope
`{ success: false, error: "boom" }` — no data field, hence no record of
the successful grant for "A": the claim that the result distinguishes the
successful grant from the failure is false at this input. -/
theorem createGrant_partial_failure_counterexample :
    createGrantLive be1 ["A", "B"] "r" = failObj "boom"
    ∧ performedGrants be1 ["A", "B"] = [("A", "gid-A")]
    ∧ hasField (createGrantLive be1 ["A", "B"] "r") "data" = false
    ∧ getField (createGrantLive be1 ["A", "B"] "r") "success" = some (jbool false) :=
  ⟨rfl, rfl, rfl, rfl⟩

/-- Claim C1, amended: when the grant for "A" succeeds and the grant for
"B" fails, the result does not report overall success — it is the failure
envelope carrying only the backend error — but it silently drops the
record of the successful grant for "A", which was already performed at the
backend. -/
theorem createGrant_partial_failure_amended (post : String → Except String String)
    (rsn gA e : String)
    (hA : post "A" = Except.ok gA) (hB : post "B" = Except.error e) :
    createGrantLive post ["A", "B"] rsn = failObj e
    ∧ performedGrants post ["A", "B"] = [("A", gA)] := by
  constructor
  · simp [createGrantLive, createGrantResults, hA, hB]
  · simp [performedGrants, hA, hB]

/-- Witness for the amended C1 at the concrete backend be1. -/
theorem createGrant_partial_failure_amended_witness :
    createGrantLive be1 ["A", "B"] "why" = failObj "boom"
    ∧ performedGrants be1 ["A", "B"] = [("A", "gid-A")] :=
  createGrant_partial_failure_amended be1 "why" "gid-A" "boom" rfl rfl

/-- Claim C3, counterexample: for add_request_message on the same input,
the mock result envelope is { success, requestId, message } while the live
success envelope is { success, data } — the two code paths do not produce
structurally identical ToolResult shapes. -/
theorem mock_live_shape_counterexample :
    topFields (addRequestMessageMock "req1" "hello")
      = ["success", "requestId", "message"]
    ∧ topFields (addRequestMessageLive (fun _ _ => Except.ok (jobj [])) "req1" "hello")
      = ["success", "data"]
    ∧ (decide (("success" :: "requestId" :: "message" :: ([] : List String))
         = ["success", "data"]) = false) :=
  ⟨rfl, rfl, rfl⟩

/-- Claim C3, amended: list_entitlement_bundles and create_grant produce
the same envelope shape in mock mode and on the live success path
({success, data} and {success, data, reasoning} respectively), but
add_request_message does not: its mock envelope {success, requestId,
message} differs from the live success envelope {success, data}. -/
theorem mock_live_shape_amended (be : Backend) (gen : Nat → String)
    (appId u rid msg rsn : String) (ids : List String)
    (bs : List Bundle) (d : JsonVal)
    (hl : be.listBundles appId = Except.ok bs)
    (hg : ∀ id ∈ ids, ∃ g, be.postGrant u id = Except.ok g)
    (hm : be.postMessage rid msg = Except.ok d) :
    topFields (listEntitlementBundles true be appId)
      = topFields (listEntitlementBundles false be appId)
    ∧ topFields (createGrantMock gen ids rsn)
      = topFields (createGrantLive (be.postGrant u) ids rsn)
    ∧ topFields (addRequestMessageMock rid msg)
      ≠ topFields (addRequestMessageLive be.postMessage rid msg) := by
  refine ⟨?_, ?_, ?_⟩
  · simp [listEntitlementBundles, hl, topFields]
  · rw [createGrantLive_ok (be.postGrant u) ids rsn hg]
    rfl
  · simp [addRequestMessageLive, hm, addRequestMessageMock, topFields]

/-- Witness for the amended C3 at the all-ok backend be2. -/
theorem mock_live_shape_amended_witness :
    topFields (createGrantMock gen0 ["A"] "why")
      = topFields (createGrantLive (be2.postGrant "u1") ["A"] "why") :=
  (mock_live_shape_amended be2 gen0 "app1" "u1" "req1" "hi" "why" ["A"] [] (jobj [])
    rfl (fun _ _ => ⟨"gid-1", rfl⟩) rfl).2.1

/-- Claim C7, counterexample: executeTool performs no argument
validation.  In mock mode, list_entitlement_bundles called with the
required applicationId absent returns a successful ToolResult (the fixed
mock catalog), not a failed one. -/
theorem missing_arg_counterexample :
    emptyArgs.applicationId = none
    ∧ executeTool true be0 gen0 "list_entitlement_bundles" emptyArgs
        = ExecOutcome.result (jobj [("success", jbool true),
            ("data", jarr (mockBundles.map bundleJson))])
    ∧ getField (listEntitlementBundles true be0 "undefined") "success"
        = some (jbool true) :=
  ⟨rfl, rfl, rfl⟩

/-- Claim C7, amended: executeTool does not validate required arguments;
with a required argument absent the call simply proceeds.  Mock
list_entitlement_bundles without applicationId returns a successful
ToolResult; mock create_grant without entitlementIds throws a synchronous
TypeError (entitlementIds.length is read outside any try/catch); only the
live create_grant yields a failed ToolResult, because its try/catch
happens to catch the same TypeError. -/
theorem executeTool_no_validation_amended (be : Backend) (gen : Nat → String)
    (a1 a2 : ToolArgs)
    (h1 : a1.applicationId = none) (h2 : a2.entitlementIds = none) :
    executeTool true be gen "list_entitlement_bundles" a1
      = ExecOutcome.result (jobj [("success", jbool true),
          ("data", jarr (mockBundles.map bundleJson))])
    ∧ executeTool true be gen "create_grant" a2
      = ExecOutcome.thrown typeErrorLength
    ∧ executeTool false be gen "create_grant" a2
      = ExecOutcome.result (failObj typeErrorLength) := by
  refine ⟨rfl, ?_, ?_⟩
  · cases a2 with
    | mk x1 x2 x3 x4 x5 x6 =>
      cases x3 with
      | none => rfl
      | some ids => exact Option.noConfusion h2
  · cases a2 with
    | mk x1 x2 x3 x4 x5 x6 =>
      cases x3 with
      | none => rfl
      | some ids => exact Option.noConfusion h2

/-- Witness for the amended C7 at the all-absent args object. -/
theorem executeTool_no_validation_amended_witness :
    executeTool true be0 gen0 "create_grant" emptyArgs
      = ExecOutcome.thrown typeErrorLength :=
  (executeTool_no_validation_amended be0 gen0 emptyArgs emptyArgs rfl rfl).2.1

/-- Claim C4, code bug: after the first model turn, handleToolCalls
rebuilds the messages array from the fixed system message "Process this
access request autonomously." — the system instruction built from the
webhook data (with the decision policy and the authoritative userId and
accessRequestId) is absent from the second and every later model request,
although the assistant and tool-result messages are accumulated. -/
theorem later_requests_drop_system_prompt :
    (allModelRequests wd0 true be0 gen0 firstResp [respFinal]).length = 2
    ∧ systemContents ((allModelRequests wd0 true be0 gen0 firstResp [respFinal]).getD 1 [])
        = ["Process this access request autonomously."]
    ∧ (decide (buildSystemPrompt wd0
         = "Process this access request autonomously.") = false) :=
  ⟨rfl, rfl, by decide⟩

/-- Claim C6, counterexample: a model response whose tool_calls property
is a present-but-empty array contains zero tool-call requests, yet the
loop does not terminate at that turn: the empty array is truthy in the JS
guard, so the loop issues one more model request and only terminates at
the following response.  The claim that the loop terminates exactly when a
turn contains zero tool-call requests is therefore false at this input. -/
theorem loop_empty_toolcalls_counterexample :
    (respEmptyCalls.tool_calls.getD []).length = 0
    ∧ (handleToolCalls true be0 gen0 respEmptyCalls [respFinal]).requests.length = 1
    ∧ (handleToolCalls true be0 gen0 respEmptyCalls [respFinal]).final = some respFinal :=
  ⟨rfl, rfl, rfl⟩

/-- Claim C6, amended: the loop terminates exactly when the model
tool_calls property of the response is absent (not merely empty): the loop
issues no further model request iff the current response has no
tool_calls property; whenever the loop ends with a final response, that
tool_calls of that response is absent; and upon a terminating response the loop
executes no tool at all, whatever responses might follow. -/
theorem loop_termination_amended (mock : Bool) (be : Backend) (gen : Nat → String)
    (cur : ModelMsg) (future : List ModelMsg) (msgs : List ChatMsg) :
    ((runLoop mock be gen cur future msgs).requests = [] ↔ cur.tool_calls = none)
    ∧ (∀ r, (runLoop mock be gen cur future msgs).final = some r → r.tool_calls = none)
    ∧ (cur.tool_calls = none →
        (runLoop mock be gen cur future msgs).executed = []
        ∧ (runLoop mock be gen cur future msgs).final = some cur) := by
  induction future generalizing cur msgs with
  | nil =>
    cases h : cur.tool_calls with
    | none =>
      rw [runLoop_none mock be gen cur [] msgs h]
      refine ⟨by simp [h], ?_, fun _ => ⟨rfl, rfl⟩⟩
      intro r hr
      simp only [Option.some.injEq] at hr
      rw [← hr]
      exact h
    | some calls =>
      rw [runLoop_some_nil mock be gen cur msgs calls h]
      refine ⟨by simp [h], ?_, by simp [h]⟩
      intro r hr
      exact Option.noConfusion hr
  | cons next rest ih =>
    cases h : cur.tool_calls with
    | none =>
      rw [runLoop_none mock be gen cur (next :: rest) msgs h]
      refine ⟨by simp [h], ?_, fun _ => ⟨rfl, rfl⟩⟩
      intro r hr
      simp only [Option.some.injEq] at hr
      rw [← hr]
      exact h
    | some calls =>
      rw [runLoop_some_cons mock be gen cur next rest msgs calls h]
      refine ⟨by simp [h], ?_, by simp [h]⟩
      intro r hr
      exact (ih next _).2.1 r hr

/-- Witness for the amended C6: at a terminating response the loop
executes nothing and returns that response as final. -/
theorem loop_termination_amended_witness :
    (runLoop true be0 gen0 respFinal [] [genericSystem]).executed = []
    ∧ (runLoop true be0 gen0 respFinal [] [genericSystem]).final = some respFinal :=
  (loop_termination_amended true be0 gen0 respFinal [] [genericSystem]).2.2 rfl

/-- Claim C8: a tool call naming an unknown tool is fatal only for that
one call: the thrown executor error is caught and appended as a failed
tool-result message correlated to the identifier of that call, among the result messages
of this turn, and the loop then requests the next model turn
(the next request is issued with all the accumulated messages) instead of
aborting. -/
theorem unknown_tool_in_loop_continues (mock : Bool) (be : Backend)
    (gen : Nat → String) (cur : ModelMsg) (future : List ModelMsg)
    (msgs : List ChatMsg) (calls : List ToolCall) (c : ToolCall)
    (hcur : cur.tool_calls = some calls) (hc : c ∈ calls)
    (hu : c.name ∉ registeredTools) :
    execCallMsg mock be gen c
      = ChatMsg.tool c.id (failObj ("Unknown MCP tool: " ++ c.name))
    ∧ ChatMsg.tool c.id (failObj ("Unknown MCP tool: " ++ c.name))
        ∈ calls.map (execCallMsg mock be gen)
    ∧ (runLoop mock be gen cur future msgs).requests.head? =
        some (msgs ++ [ChatMsg.assistant cur] ++ calls.map (execCallMsg mock be gen)) := by
  have h1 : execCallMsg mock be gen c
      = ChatMsg.tool c.id (failObj ("Unknown MCP tool: " ++ c.name)) := by
    unfold execCallMsg
    rw [executeTool_unknown_eq mock be gen c.name c.args hu]
  refine ⟨h1, by rw [← h1]; exact List.mem_map_of_mem _ hc, ?_⟩
  cases future with
  | nil =>
    rw [runLoop_some_nil mock be gen cur msgs calls hcur]
    rfl
  | cons next rest =>
    rw [runLoop_some_cons mock be gen cur next rest msgs calls hcur]
    rfl

/-- Witness for C8 at the concrete unknown-tool call badCall. -/
theorem unknown_tool_in_loop_continues_witness :
    execCallMsg true be0 gen0 badCall
      = ChatMsg.tool "call_9" (failObj ("Unknown MCP tool: " ++ "bogus_tool")) :=
  (unknown_tool_in_loop_continues true be0 gen0 respBad [] [genericSystem]
    [badCall] badCall rfl (by simp) (by decide)).1

/-- Claim C9: a model turn with k tool-call requests executes all k calls
in emission order, appending exactly one result message per call —
correlated to the identifier of that call — and only then issues the next model
request, whose messages array is the prior messages plus the assistant
message plus the k result messages in order. -/
theorem turn_executes_all_calls_in_order (mock : Bool) (be : Backend)
    (gen : Nat → String) (cur : ModelMsg) (future : List ModelMsg)
    (msgs : List ChatMsg) (calls : List ToolCall)
    (h : cur.tool_calls = some calls) :
    (runLoop mock be gen cur future msgs).requests.head? =
      some (msgs ++ [ChatMsg.assistant cur] ++ calls.map (execCallMsg mock be gen))
    ∧ (calls.map (execCallMsg mock be gen)).length = calls.length
    ∧ ∀ c ∈ calls, ∃ content, execCallMsg mock be gen c = ChatMsg.tool c.id content := by
  refine ⟨?_, by simp, ?_⟩
  · cases future with
    | nil =>
      rw [runLoop_some_nil mock be gen cur msgs calls h]
      rfl
    | cons next rest =>
      rw [runLoop_some_cons mock be gen cur next rest msgs calls h]
      rfl
  · intro c _
    cases hr : executeTool mock be gen c.name c.args with
    | result r =>
      refine ⟨r, ?_⟩
      unfold execCallMsg
      rw [hr]
    | thrown e =>
      refine ⟨failObj e, ?_⟩
      unfold execCallMsg
      rw [hr]

/-- Witness for C9 at a concrete single-call turn. -/
theorem turn_executes_all_calls_in_order_witness :
    (runLoop true be0 gen0 firstResp [] [genericSystem]).requests.head? =
      some ([genericSystem] ++ [ChatMsg.assistant firstResp]
        ++ [call0].map (execCallMsg true be0 gen0)) :=
  (turn_executes_all_calls_in_order true be0 gen0 firstResp [] [genericSystem]
    [call0] rfl).1

end OigAgent
